import Mathlib

/-!
Shallow embedding of the `baditaflorin/bluesky` follower-ingestion pipeline.

The repository contains several variants of the same Go program:
* `src/main.go` — minimal variant (no retries);
* `src/clean_start/main.go` — a "clean start" variant (context cancellation,
  retry loop, 6-column schema) followed by a "resume" variant (`-cursor` flag,
  11-column schema with viewer flags / labels / description);
* `src/unnamed/part_000` — retry variant without context;
* `src/unnamed/part_001` — the resume variant (no context);
* `src/unnamed/part_002`, `src/clean_start/main_test.go` — tests.

We embed the data model (`Follower`, `Label`, the `followers` table row),
the persistence writer `saveFollowers` (transaction with per-record upsert,
rollback on the first failing write), the page fetcher `fetchFollowers`
(bounded retry loop with linear backoff and context-cancellation checks),
and both variants of the pagination driver loop in `main`.

Modeling conventions:
* A SQLite table keyed by its primary key `did` is modeled as its key → row
  map (`Store`); row order inside the table is not part of the table content.
* `time.Time` values are opaque scalars (`Nat`).
* The success/failure of `stmt.Exec` on a record is an oracle
  `fails : Follower → Bool`; transaction semantics (Begin/Exec/Rollback/
  Commit) are explicit: writes go to a pending view that becomes the store
  only on commit, and rollback returns the original store.
* Wall-clock time advances only through `time.Sleep`; one time unit is one
  second, the unit of the code's `time.Duration(attempt) * time.Second`.
-/

namespace Bluesky

/-- `Label` (src/unnamed/part_001 lines 44-48): one label object with
`Type` and `Value` fields. -/
structure Label where
  type : String
  value : String
deriving Repr, DecidableEq

/-- `Follower` (src/unnamed/part_001 lines 24-35), resume-variant shape;
`Viewer` is inlined as its three fields, `time.Time` is opaque (`Nat`). -/
structure Follower where
  did : String
  handle : String
  displayName : String
  avatar : String
  viewerMuted : Bool
  viewerBlockedBy : Bool
  viewerFollowing : String
  labels : List Label
  createdAt : Nat
  description : String
  indexedAt : Nat
deriving Repr, DecidableEq

/-- One row of the `followers` table, resume-variant schema
(src/unnamed/part_001 lines 111-125): the label list is stored as one
serialized string column. -/
structure Row where
  did : String
  handle : String
  displayName : String
  avatar : String
  viewerMuted : Bool
  viewerBlockedBy : Bool
  viewerFollowing : String
  labels : String
  createdAt : Nat
  description : String
  indexedAt : Nat
deriving Repr, DecidableEq

/-- Label serialization (src/unnamed/part_001 lines 209-215): the Go loop
appends `fmt.Sprintf("%s:%s", label.Type, label.Value)` for each label in
order and then applies `strings.Join(labels, ",")`, i.e. the
order-preserving comma-separated join of `type:value` pairs. -/
def labelString (ls : List Label) : String :=
  String.intercalate "," (ls.map (fun l => l.type ++ ":" ++ l.value))

/-- The row written for a follower by the `stmt.Exec` call
(src/unnamed/part_001 lines 217-229). -/
def rowOf (f : Follower) : Row :=
  ⟨f.did, f.handle, f.displayName, f.avatar, f.viewerMuted, f.viewerBlockedBy,
    f.viewerFollowing, labelString f.labels, f.createdAt, f.description,
    f.indexedAt⟩

/-- The `followers` table, keyed by its `did TEXT PRIMARY KEY`. -/
def Store := String → Option Row

/-- `INSERT OR REPLACE` keyed by `did`: the row for `f.did` is replaced,
every other key is untouched. -/
def upsert (s : Store) (f : Follower) : Store :=
  fun k => if k = f.did then some (rowOf f) else s k

/-- The `for _, follower := range followers` body of `saveFollowers`
(src/unnamed/part_001 lines 209-236): records are written in order into the
transaction's pending view; the first failing `stmt.Exec` aborts with the
error `failed to execute statement for follower <did>`. -/
def saveLoop (fails : Follower → Bool) (pending : Store) :
    List Follower → Except String Store
  | [] => Except.ok pending
  | f :: rest =>
    if fails f then
      Except.error ("failed to execute statement for follower " ++ f.did)
    else saveLoop fails (upsert pending f) rest

/-- `saveFollowers` (src/unnamed/part_001 lines 191-244, equally
src/clean_start/main.go lines 281-321 / 612-663): one transaction for the
whole batch; on any record failure the transaction is rolled back (the store
is returned unchanged) and the error is returned; otherwise the pending view
is committed. -/
def saveFollowers (fails : Follower → Bool) (followers : List Follower)
    (store : Store) : Except String Unit × Store :=
  match saveLoop fails store followers with
  | Except.ok s' => (Except.ok (), s')
  | Except.error m => (Except.error m, store)

/-- If no record of the batch fails, `saveLoop` commits the left fold of
upserts over the batch. -/
theorem saveLoop_ok_of_no_fail (fails : Follower → Bool) :
    ∀ (B : List Follower), (∀ f ∈ B, fails f = false) → ∀ (p : Store),
      saveLoop fails p B = Except.ok (B.foldl upsert p) := by
  intro B
  induction B with
  | nil => intro _ p; rfl
  | cons f rest ih =>
    intro h p
    have hf : fails f = false := h f (List.mem_cons_self f rest)
    simp only [saveLoop, hf, Bool.false_eq_true, if_false, List.foldl_cons]
    exact ih (fun g hg => h g (List.mem_cons_of_mem f hg)) (upsert p f)

/-- If some record of the batch fails, `saveLoop` returns an error,
whatever the pending view is. -/
theorem saveLoop_error_of_fail (fails : Follower → Bool) :
    ∀ (B : List Follower), (∃ f ∈ B, fails f = true) → ∀ (p : Store),
      ∃ m, saveLoop fails p B = Except.error m := by
  intro B
  induction B with
  | nil => intro h; exact absurd h (by simp)
  | cons f rest ih =>
    intro h p
    by_cases hf : fails f = true
    · refine ⟨"failed to execute statement for follower " ++ f.did, ?_⟩
      simp [saveLoop, hf]
    · have hf' : fails f = false := by
        cases hfv : fails f with
        | false => rfl
        | true => exact absurd hfv hf
      have hrest : ∃ g ∈ rest, fails g = true := by
        rcases h with ⟨g, hg, hgf⟩
        rcases List.mem_cons.mp hg with hgf' | hgr
        · exact absurd (hgf' ▸ hgf) hf
        · exact ⟨g, hgr, hgf⟩
      rcases ih hrest (upsert p f) with ⟨m, hm⟩
      exact ⟨m, by simp [saveLoop, hf', hm]⟩

/-- Lookup after a fold of upserts: key `k` holds the row of the last batch
record whose `did` is `k`, and is untouched when no batch record has
`did = k`. -/
theorem foldl_upsert_apply :
    ∀ (B : List Follower) (s : Store) (k : String),
      (B.foldl upsert s) k =
        match B.reverse.find? (fun f => f.did == k) with
        | some f => some (rowOf f)
        | none => s k := by
  intro B
  induction B with
  | nil => intro s k; rfl
  | cons f rest ih =>
    intro s k
    simp only [List.foldl_cons, List.reverse_cons]
    rw [ih (upsert s f) k]
    rw [List.find?_append]
    cases hr : rest.reverse.find? (fun g => g.did == k) with
    | some g => simp
    | none =>
      simp only [Option.none_or]
      by_cases hk : f.did = k
      · simp [List.find?, hk, upsert]
      · have hb : (f.did == k) = false := by
          simp [hk]
        simp only [List.find?, hb, upsert]
        rw [if_neg (fun h => hk h.symm)]

/-- C1: persist is idempotent. For every batch `B` and store, running
`saveFollowers` a second time with the same batch (and the same per-record
write behavior) leaves the store exactly as after the first call — the same
key → row map, hence the same row count and the same field values. This
covers both the all-success case (upserts keyed by `did` are absorbed by a
repeat) and the failure case (both calls roll back). -/
theorem claim_C1_persist_idempotent (fails : Follower → Bool)
    (B : List Follower) (s : Store) :
    (saveFollowers fails B (saveFollowers fails B s).2).2 =
      (saveFollowers fails B s).2 := by
  by_cases hex : ∃ f ∈ B, fails f = true
  · obtain ⟨m, hm⟩ := saveLoop_error_of_fail fails B hex s
    have h1 : (saveFollowers fails B s).2 = s := by simp [saveFollowers, hm]
    rw [h1]
    exact h1
  · have hall : ∀ f ∈ B, fails f = false := by
      intro f hf
      cases hfv : fails f with
      | false => rfl
      | true => exact absurd ⟨f, hf, hfv⟩ hex
    have h1 : (saveFollowers fails B s).2 = B.foldl upsert s := by
      simp [saveFollowers, saveLoop_ok_of_no_fail fails B hall s]
    have h2 : (saveFollowers fails B (B.foldl upsert s)).2 =
        B.foldl upsert (B.foldl upsert s) := by
      simp [saveFollowers, saveLoop_ok_of_no_fail fails B hall (B.foldl upsert s)]
    rw [h1, h2]
    funext k
    rw [foldl_upsert_apply B (B.foldl upsert s) k, foldl_upsert_apply B s k]
    cases hf : B.reverse.find? (fun f => f.did == k) with
    | some f => rfl
    | none => rfl

/-- C2: persist is atomic on failure. If writing any single record of the
batch fails, `saveFollowers` returns an error and the store is returned
exactly as it was before the call — no record of the batch, including
records written earlier inside the same transaction, is observable. -/
theorem claim_C2_persist_atomic (fails : Follower → Bool)
    (B : List Follower) (s : Store) (h : ∃ f ∈ B, fails f = true) :
    (∃ m, (saveFollowers fails B s).1 = Except.error m) ∧
      (saveFollowers fails B s).2 = s := by
  obtain ⟨m, hm⟩ := saveLoop_error_of_fail fails B h s
  exact ⟨⟨m, by simp [saveFollowers, hm]⟩, by simp [saveFollowers, hm]⟩

/-- A follower with only identity fields set, for concrete instances. -/
def mkFollower (d h : String) : Follower :=
  ⟨d, h, "", "", false, false, "", [], 0, "", 0⟩

/-- The empty `followers` table. -/
def emptyStore : Store := fun _ => none

/-- Witness for C2: the spec's atomic-batch scenario — a batch of three
records whose second record fails to write yields an error and an
unchanged (empty) store. -/
theorem claim_C2_persist_atomic_witness :
    (∃ f ∈ [mkFollower "d1" "h1", mkFollower "d2" "h2", mkFollower "d3" "h3"],
        (fun g => g.did == "d2") f = true) ∧
    ((∃ m, (saveFollowers (fun g => g.did == "d2")
        [mkFollower "d1" "h1", mkFollower "d2" "h2", mkFollower "d3" "h3"]
        emptyStore).1 = Except.error m) ∧
      (saveFollowers (fun g => g.did == "d2")
        [mkFollower "d1" "h1", mkFollower "d2" "h2", mkFollower "d3" "h3"]
        emptyStore).2 = emptyStore) :=
  ⟨by decide, claim_C2_persist_atomic _ _ _ (by decide)⟩

/-- C8: label serialization. A committed record is stored under its `did`
key as `rowOf f`, whose `labels` column is the order-preserving
comma-separated join of `type:value` pairs; for the two-label list
`[(t1, v1), (t2, v2)]` this is exactly `t1:v1,t2:v2`, and the empty (or
absent, i.e. zero-valued) label list is stored as the empty string. -/
theorem claim_C8_label_serialization (f : Follower) (s : Store)
    (t1 v1 t2 v2 : String) :
    (saveFollowers (fun _ => false) [f] s).2 f.did = some (rowOf f) ∧
    (rowOf f).labels =
      String.intercalate "," (f.labels.map (fun l => l.type ++ ":" ++ l.value)) ∧
    labelString [⟨t1, v1⟩, ⟨t2, v2⟩] =
      t1 ++ ":" ++ v1 ++ "," ++ t2 ++ ":" ++ v2 ∧
    labelString [] = "" := by
  refine ⟨?_, rfl, ?_, rfl⟩
  · simp [saveFollowers, saveLoop, upsert]
  · simp [labelString, String.intercalate, String.intercalate.go,
      String.append_assoc]

/-- `maxRetries` (src/clean_start/main.go line 25). -/
def maxRetries : Nat := 5

/-- `baseURL` (src/clean_start/main.go line 22). -/
def baseURL : String :=
  "https://public.api.bsky.app/xrpc/app.bsky.graph.getFollowers?actor=did%3Aplc%3Az72i7hdynmk6r22z27h6tvur&limit=30"

/-- URL construction at the top of `fetchFollowers`
(src/clean_start/main.go lines 203-206): `url := baseURL` and, when the
cursor is non-empty, `url += "&cursor=" + cursor` — plain string
concatenation, no URL escaping of the cursor. -/
def buildURL (cursor : String) : String :=
  if cursor = "" then baseURL else baseURL ++ "&cursor=" ++ cursor

/-- `APIResponse` (src/unnamed/part_001 lines 50-54). -/
structure APIResponse where
  followers : List Follower
  cursor : String
deriving Repr, DecidableEq

/-- The outcome the environment hands one fetch attempt before
body-level processing: request construction failed, the HTTP round trip
failed (`http.DefaultClient.Do` error), or a response arrived with a status
code and either a body or a body-read (`io.ReadAll`) failure. A context
cancellation that interrupts the HTTP call itself surfaces as
`transportFail`, matching the Go error path. -/
inductive AttemptEnv where
  | reqCreateFail
  | transportFail
  | response (status : Nat) (body : Option (List Nat))
deriving Repr, DecidableEq

/-- The classification `fetchFollowers` gives one attempt: exactly one of
transport failure, non-success status, body-read failure, content-type
mismatch (HTML sniff), decode failure, success, or the non-retried
request-construction failure. -/
inductive AttemptClass where
  | transportFailure
  | statusFailure (status : Nat)
  | readFailure
  | contentTypeMismatch
  | decodeFailure
  | ok (resp : APIResponse)
  | createFailure
deriving Repr, DecidableEq

/-- Body-level processing shared by all variants of `fetchFollowers`: first
the HTML sniff check (`continue` when it fires), then `json.Unmarshal`
(`continue` on error, return the page on success). The sniff check and the
JSON decoder are parameters: each code variant supplies its own check, and
`dec` abstracts `json.Unmarshal` into `APIResponse`. -/
def classifyBody (htmlCheck : List Nat → Bool)
    (dec : List Nat → Option APIResponse) (b : List Nat) : AttemptClass :=
  if htmlCheck b then AttemptClass.contentTypeMismatch
  else
    match dec b with
    | none => AttemptClass.decodeFailure
    | some resp => AttemptClass.ok resp

/-- The attempt classification of the clean-start `fetchFollowers`
(src/clean_start/main.go lines 218-269): request-creation error, transport
error, status check, body read, then body-level processing. -/
def classifyAttempt (htmlCheck : List Nat → Bool)
    (dec : List Nat → Option APIResponse) : AttemptEnv → AttemptClass
  | AttemptEnv.reqCreateFail => AttemptClass.createFailure
  | AttemptEnv.transportFail => AttemptClass.transportFailure
  | AttemptEnv.response status body =>
    if status ≠ 200 then AttemptClass.statusFailure status
    else
      match body with
      | none => AttemptClass.readFailure
      | some b => classifyBody htmlCheck dec b

/-- HTML sniff check of src/unnamed/part_000 line 134:
`http.DetectContentType(body) == "text/html"`. -/
def htmlCheck000 (detectCT : List Nat → String) (b : List Nat) : Bool :=
  detectCT b == "text/html"

/-- HTML sniff check of src/unnamed/part_001 line 168 (also
src/clean_start/main.go line 589):
`http.DetectContentType(body) == "text/html; charset=utf-8"`. -/
def htmlCheck001 (detectCT : List Nat → String) (b : List Nat) : Bool :=
  detectCT b == "text/html; charset=utf-8"

/-- Go's `strings.HasPrefix(s, p)`, embedded on the character lists of the
two strings so that it evaluates by kernel reduction. -/
def hasPrefixStr (s p : String) : Bool :=
  p.data.isPrefixOf s.data

/-- HTML sniff check of src/clean_start/main.go lines 254-255:
`strings.HasPrefix(http.DetectContentType(body), "text/html")`. -/
def htmlCheckClean (detectCT : List Nat → String) (b : List Nat) : Bool :=
  hasPrefixStr (detectCT b) "text/html"

/-- A classification that makes the retry loop `continue` after the
`time.Sleep(time.Duration(attempt) * time.Second)` backoff. -/
def isRetryable : AttemptClass → Bool
  | AttemptClass.transportFailure => true
  | AttemptClass.statusFailure _ => true
  | AttemptClass.readFailure => true
  | AttemptClass.contentTypeMismatch => true
  | AttemptClass.decodeFailure => true
  | AttemptClass.ok _ => false
  | AttemptClass.createFailure => false

/-- What `fetchFollowers` returns: a page, a cancellation
(`ctx.Err()`), the non-retried request-creation error, or the
`exceeded max retries for cursor %s` error carrying the cursor. -/
inductive FetchResult where
  | success (followers : List Follower) (newCursor : String)
  | cancelled
  | reqFailed
  | exhausted (cursor : String)
deriving Repr, DecidableEq

/-- The error message text of a failed fetch
(src/clean_start/main.go line 277). -/
def fetchErrorMessage : FetchResult → Option String
  | FetchResult.exhausted c => some ("exceeded max retries for cursor " ++ c)
  | _ => none

/-- Observable outcome of one `fetchFollowers` call: the result, the number
of attempts actually made, the start time of each attempt, the time at
which the call returns, and the cumulative backoff slept. -/
structure FetchOut where
  result : FetchResult
  attempts : Nat
  starts : List Nat
  endTime : Nat
  totalSleep : Nat
deriving Repr, DecidableEq

/-- Whether the cancellation signal (fired at time `c`, when `tc = some c`)
is observable at time `t` — `ctx.Err() != nil`. -/
def fired (tc : Option Nat) (t : Nat) : Bool :=
  match tc with
  | some c => decide (c ≤ t)
  | none => false

/-- The `for attempt := 1; attempt <= maxRetries; attempt++` loop of the
clean-start `fetchFollowers` (src/clean_start/main.go lines 208-275), over
the list of remaining attempt numbers. Per attempt: the `ctx.Err()` check
returns a cancellation; a request-creation error returns immediately; a
retryable classification sleeps `attempt` seconds and continues; success
returns the page. Falling off the loop yields the exhausted-retries error
(line 277). Attempts themselves take no model time; time advances only in
`time.Sleep`, which is not interruptible. -/
def fetchLoop (tc : Option Nat) (env : Nat → AttemptEnv)
    (htmlCheck : List Nat → Bool) (dec : List Nat → Option APIResponse)
    (cursor : String) :
    List Nat → Nat → Nat → List Nat → Nat → FetchOut
  | [], t, att, starts, slp =>
    ⟨FetchResult.exhausted cursor, att, starts, t, slp⟩
  | k :: ks, t, att, starts, slp =>
    if fired tc t then ⟨FetchResult.cancelled, att, starts, t, slp⟩
    else
      match classifyAttempt htmlCheck dec (env k) with
      | AttemptClass.createFailure =>
        ⟨FetchResult.reqFailed, att + 1, starts ++ [t], t, slp⟩
      | AttemptClass.ok resp =>
        ⟨FetchResult.success resp.followers resp.cursor, att + 1,
          starts ++ [t], t, slp⟩
      | _ =>
        fetchLoop tc env htmlCheck dec cursor ks (t + k) (att + 1)
          (starts ++ [t]) (slp + k)

/-- The attempt numbers `1, ..., maxRetries` visited by the retry loop. -/
def attemptSchedule : List Nat := [1, 2, 3, 4, 5]

/-- `fetchFollowers` of the clean-start variant
(src/clean_start/main.go lines 202-278), with the HTML sniff based on a
`detectCT` parameter abstracting `http.DetectContentType`. -/
def fetchFollowersClean (tc : Option Nat) (env : Nat → AttemptEnv)
    (detectCT : List Nat → String) (dec : List Nat → Option APIResponse)
    (cursor : String) : FetchOut :=
  fetchLoop tc env (htmlCheckClean detectCT) dec cursor attemptSchedule 0 0 [] 0

/-- C10: the request URL is the base URL with the literal `&cursor=` and
the token appended verbatim when the token is non-empty (no URL escaping;
a token containing `&`, `=` or `#` is spliced into the query string
as-is), and exactly the base URL for the empty token. -/
theorem claim_C10_url_building (c : String) :
    (c ≠ "" → buildURL c = baseURL ++ "&cursor=" ++ c) ∧
    (c = "" → buildURL c = baseURL) ∧
    buildURL "a&b=c#d" = baseURL ++ "&cursor=" ++ "a&b=c#d" := by
  refine ⟨fun h => ?_, fun h => ?_, ?_⟩
  · simp [buildURL, h]
  · simp [buildURL, h]
  · rfl

/-- Witness for C10 at a concrete non-empty token. -/
theorem claim_C10_url_building_witness :
    ("tok" : String) ≠ "" ∧ buildURL "tok" = baseURL ++ "&cursor=" ++ "tok" :=
  ⟨by decide, (claim_C10_url_building "tok").1 (by decide)⟩

/-- C9 (the code, at the claim's cited part_000 lines, contradicts it):
for any body whose sniffed content type is `text/html; charset=utf-8` —
what Go's `http.DetectContentType` reports for every body it sniffs as
HTML; it always appends the charset parameter and never returns the bare
`"text/html"` — and which is not decodable JSON (an HTML page never is:
JSON cannot start with `<`), the part_000 check
`DetectContentType(body) == "text/html"` never fires, so part_000
classifies the attempt as a decode failure, not as a content-type
mismatch. The clean-start HasPrefix check and the part_001 full-string
check do classify it as a content-type mismatch. In all variants the
classification is retryable and the body is never returned as a
successful page. -/
theorem claim_C9_html_classification_bug (detectCT : List Nat → String)
    (dec : List Nat → Option APIResponse) (b : List Nat)
    (hsniff : detectCT b = "text/html; charset=utf-8")
    (hdec : dec b = none) :
    classifyBody (htmlCheck000 detectCT) dec b = AttemptClass.decodeFailure ∧
    classifyBody (htmlCheck000 detectCT) dec b ≠
      AttemptClass.contentTypeMismatch ∧
    classifyBody (htmlCheckClean detectCT) dec b =
      AttemptClass.contentTypeMismatch ∧
    classifyBody (htmlCheck001 detectCT) dec b =
      AttemptClass.contentTypeMismatch ∧
    isRetryable (classifyBody (htmlCheck000 detectCT) dec b) = true ∧
    (∀ resp, classifyBody (htmlCheck000 detectCT) dec b ≠
      AttemptClass.ok resp) := by
  have h000 : htmlCheck000 detectCT b = false := by
    simp [htmlCheck000, hsniff]
  have hclean : htmlCheckClean detectCT b = true := by
    rw [htmlCheckClean, hsniff]
    rfl
  have h001 : htmlCheck001 detectCT b = true := by
    simp [htmlCheck001, hsniff]
  refine ⟨?_, ?_, ?_, ?_, ?_, ?_⟩ <;>
    simp [classifyBody, h000, hclean, h001, hdec, isRetryable]

/-- Witness for C9: a concrete sniffing function and decoder agreeing with
Go's behavior on an HTML body. -/
theorem claim_C9_html_classification_bug_witness :
    ((fun _ : List Nat => "text/html; charset=utf-8") [] =
      "text/html; charset=utf-8") ∧
    classifyBody (htmlCheck000 (fun _ => "text/html; charset=utf-8"))
      (fun _ => none) [] = AttemptClass.decodeFailure ∧
    classifyBody (htmlCheckClean (fun _ => "text/html; charset=utf-8"))
      (fun _ => none) [] = AttemptClass.contentTypeMismatch :=
  ⟨rfl,
    (claim_C9_html_classification_bug _ _ [] rfl rfl).1,
    (claim_C9_html_classification_bug _ _ [] rfl rfl).2.2.1⟩

/-- When the signal has not fired and the attempt's classification is
retryable, the loop sleeps `k` seconds and moves to the next attempt. -/
theorem fetchLoop_retry_step (tc : Option Nat) (env : Nat → AttemptEnv)
    (htmlCheck : List Nat → Bool) (dec : List Nat → Option APIResponse)
    (cursor : String) (k : Nat) (ks : List Nat) (t att : Nat)
    (starts : List Nat) (slp : Nat)
    (hfi : fired tc t = false)
    (hr : isRetryable (classifyAttempt htmlCheck dec (env k)) = true) :
    fetchLoop tc env htmlCheck dec cursor (k :: ks) t att starts slp =
      fetchLoop tc env htmlCheck dec cursor ks (t + k) (att + 1)
        (starts ++ [t]) (slp + k) := by
  cases hc : classifyAttempt htmlCheck dec (env k) <;>
    simp_all [fetchLoop, isRetryable]

/-- The attempt start times of a run of retried attempts: one attempt per
remaining attempt number, each starting where the previous backoff ended. -/
def retryStarts (t : Nat) : List Nat → List Nat
  | [] => []
  | k :: ks => t :: retryStarts (t + k) ks

/-- With no cancellation signal and every attempt classified retryable, the
loop walks the whole schedule: one attempt per attempt number, sleeping the
attempt number after each, and ends with the exhausted-retries error. -/
theorem fetchLoop_all_retry (env : Nat → AttemptEnv)
    (htmlCheck : List Nat → Bool) (dec : List Nat → Option APIResponse)
    (cursor : String) :
    ∀ (ks : List Nat) (t att : Nat) (starts : List Nat) (slp : Nat),
      (∀ k ∈ ks, isRetryable (classifyAttempt htmlCheck dec (env k)) = true) →
      fetchLoop none env htmlCheck dec cursor ks t att starts slp =
        ⟨FetchResult.exhausted cursor, att + ks.length,
          starts ++ retryStarts t ks, t + ks.sum, slp + ks.sum⟩ := by
  intro ks
  induction ks with
  | nil => intro t att starts slp _; simp [fetchLoop, retryStarts]
  | cons k ks ih =>
    intro t att starts slp h
    rw [fetchLoop_retry_step none env htmlCheck dec cursor k ks t att starts
      slp rfl (h k (List.mem_cons_self k ks))]
    rw [ih (t + k) (att + 1) (starts ++ [t]) (slp + k)
      (fun g hg => h g (List.mem_cons_of_mem k hg))]
    simp [retryStarts, List.append_assoc, List.singleton_append,
      Nat.add_assoc, Nat.add_comm, Nat.add_left_comm, List.length_cons,
      List.sum_cons]

/-- C3: retry bound. With no cancellation and every attempt failing with a
retryable classification (transport failure, non-success status, body-read
failure, content-type mismatch, or decode failure), the clean-start
`fetchFollowers` makes exactly `maxRetries = 5` attempts (at times 0, 1, 3,
6, 10 — never a 6th), sleeps `1+2+3+4+5 = 15` backoff units in total,
returns at time 15, yields the exhausted-retries error whose message names
the cursor, and never returns a page. -/
theorem claim_C3_retry_bound (env : Nat → AttemptEnv)
    (detectCT : List Nat → String) (dec : List Nat → Option APIResponse)
    (cursor : String)
    (h : ∀ k, 1 ≤ k → k ≤ maxRetries →
      isRetryable
        (classifyAttempt (htmlCheckClean detectCT) dec (env k)) = true) :
    fetchFollowersClean none env detectCT dec cursor =
      ⟨FetchResult.exhausted cursor, maxRetries, [0, 1, 3, 6, 10], 15, 15⟩ ∧
    maxRetries = 5 ∧ (15 : Nat) = 1 + 2 + 3 + 4 + 5 ∧
    fetchErrorMessage
        (fetchFollowersClean none env detectCT dec cursor).result =
      some ("exceeded max retries for cursor " ++ cursor) := by
  have hall : ∀ k ∈ attemptSchedule,
      isRetryable
        (classifyAttempt (htmlCheckClean detectCT) dec (env k)) = true := by
    intro k hk
    simp [attemptSchedule] at hk
    rcases hk with rfl | rfl | rfl | rfl | rfl <;>
      exact h _ (by decide) (by decide)
  have hrun := fetchLoop_all_retry env (htmlCheckClean detectCT) dec cursor
    attemptSchedule 0 0 [] 0 hall
  have hout : fetchFollowersClean none env detectCT dec cursor =
      ⟨FetchResult.exhausted cursor, maxRetries, [0, 1, 3, 6, 10], 15, 15⟩ := by
    rw [fetchFollowersClean, hrun]
    rfl
  exact ⟨hout, rfl, rfl, by rw [hout]; rfl⟩

/-- Witness for C3: every attempt fails at the transport level. -/
theorem claim_C3_retry_bound_witness :
    fetchFollowersClean none (fun _ => AttemptEnv.transportFail)
        (fun _ => "application/json") (fun _ => none) "tok" =
      ⟨FetchResult.exhausted "tok", maxRetries, [0, 1, 3, 6, 10], 15, 15⟩ ∧
    maxRetries = 5 ∧ (15 : Nat) = 1 + 2 + 3 + 4 + 5 ∧
    fetchErrorMessage
        (fetchFollowersClean none (fun _ => AttemptEnv.transportFail)
          (fun _ => "application/json") (fun _ => none) "tok").result =
      some ("exceeded max retries for cursor " ++ "tok") :=
  claim_C3_retry_bound (fun _ => AttemptEnv.transportFail)
    (fun _ => "application/json") (fun _ => none) "tok"
    (fun _ _ _ => rfl)

/-- Every attempt the loop actually makes starts strictly before the
cancellation time `c`: the `ctx.Err()` check at the top of the loop body
prevents any attempt once the signal is observable. -/
theorem fetchLoop_starts_lt (env : Nat → AttemptEnv)
    (htmlCheck : List Nat → Bool) (dec : List Nat → Option APIResponse)
    (cursor : String) (c : Nat) :
    ∀ (ks : List Nat) (t att : Nat) (starts : List Nat) (slp : Nat),
      (∀ s ∈ starts, s < c) →
      ∀ s ∈ (fetchLoop (some c) env htmlCheck dec cursor
          ks t att starts slp).starts, s < c := by
  intro ks
  induction ks with
  | nil => intro t att starts slp h; simpa [fetchLoop] using h
  | cons k ks ih =>
    intro t att starts slp h
    by_cases hfi : fired (some c) t = true
    · simpa [fetchLoop, hfi] using h
    · have hfi' : fired (some c) t = false := by
        cases hv : fired (some c) t with
        | false => rfl
        | true => exact absurd hv hfi
      have ht : t < c := by
        simpa [fired] using hfi' 
      have h' : ∀ s ∈ starts ++ [t], s < c := by
        intro s hs
        rcases List.mem_append.mp hs with hs | hs
        · exact h s hs
        · simp at hs
          omega
      cases hc : classifyAttempt htmlCheck dec (env k) with
      | createFailure => simpa [fetchLoop, hfi', hc] using h'
      | ok resp => simpa [fetchLoop, hfi', hc] using h'
      | transportFailure => simpa [fetchLoop, hfi', hc] using ih _ _ _ _ h'
      | statusFailure st => simpa [fetchLoop, hfi', hc] using ih _ _ _ _ h'
      | readFailure => simpa [fetchLoop, hfi', hc] using ih _ _ _ _ h'
      | contentTypeMismatch => simpa [fetchLoop, hfi', hc] using ih _ _ _ _ h'
      | decodeFailure => simpa [fetchLoop, hfi', hc] using ih _ _ _ _ h'

/-- The loop returns less than `maxRetries` time units after the
cancellation time `c`: the worst case is a full final backoff of
`maxRetries` units entered just before the signal fired. -/
theorem fetchLoop_endTime_lt (env : Nat → AttemptEnv)
    (htmlCheck : List Nat → Bool) (dec : List Nat → Option APIResponse)
    (cursor : String) (c : Nat) :
    ∀ (ks : List Nat) (t att : Nat) (starts : List Nat) (slp : Nat),
      (∀ k ∈ ks, k ≤ maxRetries) → t < c + maxRetries →
      (fetchLoop (some c) env htmlCheck dec cursor
        ks t att starts slp).endTime < c + maxRetries := by
  intro ks
  induction ks with
  | nil => intro t att starts slp _ ht; simpa [fetchLoop] using ht
  | cons k ks ih =>
    intro t att starts slp hks ht
    by_cases hfi : fired (some c) t = true
    · simpa [fetchLoop, hfi] using ht
    · have hfi' : fired (some c) t = false := by
        cases hv : fired (some c) t with
        | false => rfl
        | true => exact absurd hv hfi
      have htc : t < c := by
        simpa [fired] using hfi' 
      have hk : k ≤ maxRetries := hks k (List.mem_cons_self k ks)
      have ht' : t + k < c + maxRetries := by
        have : (0 : Nat) < maxRetries := by decide
        omega
      have hks' : ∀ g ∈ ks, g ≤ maxRetries :=
        fun g hg => hks g (List.mem_cons_of_mem k hg)
      cases hc : classifyAttempt htmlCheck dec (env k) with
      | createFailure => simp [fetchLoop, hfi', hc]; omega
      | ok resp => simp [fetchLoop, hfi', hc]; omega
      | transportFailure => simpa [fetchLoop, hfi', hc] using ih _ _ _ _ hks' ht'
      | statusFailure st => simpa [fetchLoop, hfi', hc] using ih _ _ _ _ hks' ht'
      | readFailure => simpa [fetchLoop, hfi', hc] using ih _ _ _ _ hks' ht'
      | contentTypeMismatch => simpa [fetchLoop, hfi', hc] using ih _ _ _ _ hks' ht'
      | decodeFailure => simpa [fetchLoop, hfi', hc] using ih _ _ _ _ hks' ht'

/-- If the signal fired at or before the moment the loop returns, the
outcome is either a cancellation or the exhausted-retries error (the
latter when the signal fired during the final attempt's backoff); it is
never a page and never the request-creation error. -/
theorem fetchLoop_cancel_result (env : Nat → AttemptEnv)
    (htmlCheck : List Nat → Bool) (dec : List Nat → Option APIResponse)
    (cursor : String) (c : Nat) :
    ∀ (ks : List Nat) (t att : Nat) (starts : List Nat) (slp : Nat),
      c ≤ (fetchLoop (some c) env htmlCheck dec cursor
          ks t att starts slp).endTime →
      (fetchLoop (some c) env htmlCheck dec cursor
          ks t att starts slp).result = FetchResult.cancelled ∨
      (fetchLoop (some c) env htmlCheck dec cursor
          ks t att starts slp).result = FetchResult.exhausted cursor := by
  intro ks
  induction ks with
  | nil => intro t att starts slp _; right; simp [fetchLoop]
  | cons k ks ih =>
    intro t att starts slp hce
    by_cases hfi : fired (some c) t = true
    · left; simp [fetchLoop, hfi]
    · have hfi' : fired (some c) t = false := by
        cases hv : fired (some c) t with
        | false => rfl
        | true => exact absurd hv hfi
      have htc : t < c := by
        simpa [fired] using hfi' 
      cases hc : classifyAttempt htmlCheck dec (env k) with
      | createFailure =>
        simp [fetchLoop, hfi', hc] at hce
        omega
      | ok resp =>
        simp [fetchLoop, hfi', hc] at hce
        omega
      | transportFailure =>
        simp only [fetchLoop, hfi', hc] at hce ⊢
        exact ih _ _ _ _ (by simpa using hce)
      | statusFailure st =>
        simp only [fetchLoop, hfi', hc] at hce ⊢
        exact ih _ _ _ _ (by simpa using hce)
      | readFailure =>
        simp only [fetchLoop, hfi', hc] at hce ⊢
        exact ih _ _ _ _ (by simpa using hce)
      | contentTypeMismatch =>
        simp only [fetchLoop, hfi', hc] at hce ⊢
        exact ih _ _ _ _ (by simpa using hce)
      | decodeFailure =>
        simp only [fetchLoop, hfi', hc] at hce ⊢
        exact ih _ _ _ _ (by simpa using hce)

/-- C4, amended. Once the cancellation signal (fired at time `c`) is
observable, the clean-start `fetchFollowers` performs no further attempt:
every attempt it makes starts strictly before `c`. But the backoff
`time.Sleep` is not interruptible, so the call does not return within one
backoff wait unit: it waits out the current backoff in full and is only
guaranteed back within `maxRetries` units of the firing, and when the
signal fires during the final attempt's backoff the outcome is the
exhausted-retries error rather than a cancellation — so a fired signal
yields either a cancellation or an exhausted-retries outcome, never a
page. -/
theorem claim_C4_cancellation_amended (env : Nat → AttemptEnv)
    (detectCT : List Nat → String) (dec : List Nat → Option APIResponse)
    (cursor : String) (c : Nat) :
    (∀ s ∈ (fetchFollowersClean (some c) env detectCT dec cursor).starts,
      s < c) ∧
    (fetchFollowersClean (some c) env detectCT dec cursor).endTime <
      c + maxRetries ∧
    (c ≤ (fetchFollowersClean (some c) env detectCT dec cursor).endTime →
      (fetchFollowersClean (some c) env detectCT dec cursor).result =
          FetchResult.cancelled ∨
      (fetchFollowersClean (some c) env detectCT dec cursor).result =
          FetchResult.exhausted cursor) := by
  refine ⟨?_, ?_, ?_⟩
  · exact fetchLoop_starts_lt env (htmlCheckClean detectCT) dec cursor c
      attemptSchedule 0 0 [] 0 (by simp)
  · exact fetchLoop_endTime_lt env (htmlCheckClean detectCT) dec cursor c
      attemptSchedule 0 0 [] 0 (by decide)
      (by have h5 : maxRetries = 5 := rfl; omega)
  · exact fetchLoop_cancel_result env (htmlCheckClean detectCT) dec cursor c
      attemptSchedule 0 0 [] 0

/-- Witness for the amended C4: the signal fires at time 4, during the
third attempt's backoff (which runs from time 3 to time 6); the call
returns a cancellation at time 6 — after the signal, within `maxRetries`
units, with no attempt at or after time 4. -/
theorem claim_C4_cancellation_amended_witness :
    (4 : Nat) ≤ (fetchFollowersClean (some 4)
        (fun _ => AttemptEnv.transportFail) (fun _ => "application/json")
        (fun _ => none) "tok").endTime ∧
    ((fetchFollowersClean (some 4) (fun _ => AttemptEnv.transportFail)
        (fun _ => "application/json") (fun _ => none) "tok").result =
        FetchResult.cancelled ∨
      (fetchFollowersClean (some 4) (fun _ => AttemptEnv.transportFail)
        (fun _ => "application/json") (fun _ => none) "tok").result =
        FetchResult.exhausted "tok") :=
  ⟨by decide,
    (claim_C4_cancellation_amended (fun _ => AttemptEnv.transportFail)
      (fun _ => "application/json") (fun _ => none) "tok" 4).2.2 (by decide)⟩

/-- Counterexample to C4 as stated. Every attempt fails at the transport
level and the signal fires at time 11, during the fifth attempt's backoff
(which runs from time 10 to time 15). The fetch does not return a
cancellation outcome: it sleeps the backoff out and returns the
exhausted-retries error at time 15 — four backoff units after the signal
fired, not within one. -/
theorem claim_C4_cancellation_counterexample :
    (fetchFollowersClean (some 11) (fun _ => AttemptEnv.transportFail)
        (fun _ => "application/json") (fun _ => none) "tok") =
      ⟨FetchResult.exhausted "tok", 5, [0, 1, 3, 6, 10], 15, 15⟩ ∧
    (fetchFollowersClean (some 11) (fun _ => AttemptEnv.transportFail)
        (fun _ => "application/json") (fun _ => none) "tok").result ≠
      FetchResult.cancelled ∧
    (11 : Nat) ≤ (fetchFollowersClean (some 11)
        (fun _ => AttemptEnv.transportFail) (fun _ => "application/json")
        (fun _ => none) "tok").endTime ∧
    (fetchFollowersClean (some 11) (fun _ => AttemptEnv.transportFail)
        (fun _ => "application/json") (fun _ => none) "tok").endTime =
      11 + 4 := by
  refine ⟨rfl, by decide, by decide, rfl⟩

/-- What one scripted call of the Page Fetcher hands the driver: a page
(records plus next cursor) or a fetch error (the exhausted-retries or
request error surfaced by `fetchFollowers`). -/
inductive FetchScriptEntry where
  | page (followers : List Follower) (newCursor : String)
  | fetchErr
deriving Repr, DecidableEq

/-- Driver status: still looping, ended normally (`break` on empty
cursor), halted on error (`os.Exit(1)` / `log.Fatalf`), or returned on
context cancellation. -/
inductive DriverStatus where
  | running
  | done
  | failed
  | cancelled
deriving Repr, DecidableEq

/-- Observable record of one driver-loop iteration: the cursor on entry,
the scripted fetch outcome consumed (`none` for the cancellation return,
which consumes nothing), whether `saveFollowers` succeeded (`none` when it
was not reached), and the cursor on exit of the iteration. -/
structure IterRecord where
  cursorBefore : String
  entry : Option FetchScriptEntry
  persistOk : Option Bool
  cursorAfter : String
deriving Repr, DecidableEq

/-- Result of running a driver loop to completion (or to the end of its
script): final status, final cursor variable, final store, the batches
passed to `saveFollowers` in call order, the number of fetch calls made,
and the iteration records. -/
structure DriverOut where
  status : DriverStatus
  cursor : String
  store : Store
  persistCalls : List (List Follower)
  fetchCalls : Nat
  iters : List IterRecord

/-- Whether the interrupt-signal cancellation is observable at the top of
iteration `i` (the `select { case <-ctx.Done(): ... }` check). -/
def firedIter (cancelAt : Option Nat) (i : Nat) : Bool :=
  match cancelAt with
  | some m => decide (m ≤ i)
  | none => false

/-- The clean-start driver loop, `main` of src/clean_start/main.go lines
136-173 (the no-retry variants src/main.go lines 49-72 and
src/unnamed/part_000 lines 49-73 behave identically, with `log.Fatalf` in
place of `os.Exit(1)`). Per iteration: the cancellation check returns
CANCELLED; a fetch error halts FAILED; a persist error halts FAILED; an
empty new cursor ends DONE; otherwise the cursor advances and the loop
continues. The scripted fetcher is consumed one entry per fetch call; an
exhausted script is treated as a fetch error. -/
def runClean (fails : Follower → Bool) (cancelAt : Option Nat) :
    List FetchScriptEntry → Nat → String → Store →
      List (List Follower) → Nat → List IterRecord → DriverOut
  | [], i, c, s, tr, fc, iters =>
    if firedIter cancelAt i then
      ⟨DriverStatus.cancelled, c, s, tr, fc, iters ++ [⟨c, none, none, c⟩]⟩
    else ⟨DriverStatus.failed, c, s, tr, fc, iters⟩
  | e :: rest, i, c, s, tr, fc, iters =>
    if firedIter cancelAt i then
      ⟨DriverStatus.cancelled, c, s, tr, fc, iters ++ [⟨c, none, none, c⟩]⟩
    else
      match e with
      | FetchScriptEntry.fetchErr =>
        ⟨DriverStatus.failed, c, s, tr, fc + 1,
          iters ++ [⟨c, some FetchScriptEntry.fetchErr, none, c⟩]⟩
      | FetchScriptEntry.page fs nc =>
        match saveFollowers fails fs s with
        | (Except.error _, s') =>
          ⟨DriverStatus.failed, c, s', tr ++ [fs], fc + 1,
            iters ++ [⟨c, some (FetchScriptEntry.page fs nc), some false, c⟩]⟩
        | (Except.ok _, s') =>
          if nc = "" then
            ⟨DriverStatus.done, c, s', tr ++ [fs], fc + 1,
              iters ++ [⟨c, some (FetchScriptEntry.page fs nc), some true, c⟩]⟩
          else
            runClean fails cancelAt rest (i + 1) nc s' (tr ++ [fs]) (fc + 1)
              (iters ++ [⟨c, some (FetchScriptEntry.page fs nc), some true, nc⟩])

/-- The resume-variant driver loop, `main` of src/unnamed/part_001 lines
72-101 (equally src/clean_start/main.go lines 469-510, which adds the
cancellation check modeled here; part_001 itself has none, i.e.
`cancelAt = none`). Per iteration: a fetch error logs, sleeps 2 seconds
and `continue`s with the same cursor; a persist error logs and
`continue`s with the same cursor; an empty new cursor ends DONE; otherwise
the cursor advances. The loop has no halting error path at all. An
exhausted script leaves the loop still RUNNING. -/
def runResume (fails : Follower → Bool) (cancelAt : Option Nat) :
    List FetchScriptEntry → Nat → String → Store →
      List (List Follower) → Nat → List IterRecord → DriverOut
  | [], i, c, s, tr, fc, iters =>
    if firedIter cancelAt i then
      ⟨DriverStatus.cancelled, c, s, tr, fc, iters ++ [⟨c, none, none, c⟩]⟩
    else ⟨DriverStatus.running, c, s, tr, fc, iters⟩
  | e :: rest, i, c, s, tr, fc, iters =>
    if firedIter cancelAt i then
      ⟨DriverStatus.cancelled, c, s, tr, fc, iters ++ [⟨c, none, none, c⟩]⟩
    else
      match e with
      | FetchScriptEntry.fetchErr =>
        runResume fails cancelAt rest (i + 1) c s tr (fc + 1)
          (iters ++ [⟨c, some FetchScriptEntry.fetchErr, none, c⟩])
      | FetchScriptEntry.page fs nc =>
        match saveFollowers fails fs s with
        | (Except.error _, s') =>
          runResume fails cancelAt rest (i + 1) c s' (tr ++ [fs]) (fc + 1)
            (iters ++ [⟨c, some (FetchScriptEntry.page fs nc), some false, c⟩])
        | (Except.ok _, s') =>
          if nc = "" then
            ⟨DriverStatus.done, c, s', tr ++ [fs], fc + 1,
              iters ++ [⟨c, some (FetchScriptEntry.page fs nc), some true, c⟩]⟩
          else
            runResume fails cancelAt rest (i + 1) nc s' (tr ++ [fs]) (fc + 1)
              (iters ++ [⟨c, some (FetchScriptEntry.page fs nc), some true, nc⟩])

/-- Clean driver, fetch-error iteration: halt FAILED, nothing persisted,
cursor and store unchanged. -/
theorem runClean_fetchErr (fails : Follower → Bool) (cancelAt : Option Nat)
    (rest : List FetchScriptEntry) (i : Nat) (c : String) (s : Store)
    (tr : List (List Follower)) (fc : Nat) (iters : List IterRecord)
    (hfi : firedIter cancelAt i = false) :
    runClean fails cancelAt (FetchScriptEntry.fetchErr :: rest)
        i c s tr fc iters =
      ⟨DriverStatus.failed, c, s, tr, fc + 1,
        iters ++ [⟨c, some FetchScriptEntry.fetchErr, none, c⟩]⟩ := by
  simp [runClean, hfi]

/-- Clean driver, failing-persist iteration: halt FAILED, the batch was
passed to persist but rolled back, cursor and store unchanged. -/
theorem runClean_persistErr (fails : Follower → Bool) (cancelAt : Option Nat)
    (rest : List FetchScriptEntry) (fs : List Follower) (nc : String)
    (i : Nat) (c : String) (s : Store) (tr : List (List Follower)) (fc : Nat)
    (iters : List IterRecord)
    (hfi : firedIter cancelAt i = false)
    (hfail : ∃ f ∈ fs, fails f = true) :
    runClean fails cancelAt (FetchScriptEntry.page fs nc :: rest)
        i c s tr fc iters =
      ⟨DriverStatus.failed, c, s, tr ++ [fs], fc + 1,
        iters ++ [⟨c, some (FetchScriptEntry.page fs nc), some false, c⟩]⟩ := by
  obtain ⟨m, hm⟩ := saveLoop_error_of_fail fails fs hfail s
  simp [runClean, hfi, saveFollowers, hm]

/-- Clean driver, successful persist of the final page (empty new cursor):
end DONE with the committed store, cursor unchanged. -/
theorem runClean_page_done (fails : Follower → Bool) (cancelAt : Option Nat)
    (rest : List FetchScriptEntry) (fs : List Follower)
    (i : Nat) (c : String) (s : Store) (tr : List (List Follower)) (fc : Nat)
    (iters : List IterRecord)
    (hfi : firedIter cancelAt i = false)
    (hok : ∀ f ∈ fs, fails f = false) :
    runClean fails cancelAt (FetchScriptEntry.page fs "" :: rest)
        i c s tr fc iters =
      ⟨DriverStatus.done, c, fs.foldl upsert s, tr ++ [fs], fc + 1,
        iters ++ [⟨c, some (FetchScriptEntry.page fs ""), some true, c⟩]⟩ := by
  simp [runClean, hfi, saveFollowers, saveLoop_ok_of_no_fail fails fs hok s]

/-- Clean driver, successful persist of a non-final page: commit, advance
the cursor to the page's token, continue. -/
theorem runClean_page_advance (fails : Follower → Bool)
    (cancelAt : Option Nat) (rest : List FetchScriptEntry)
    (fs : List Follower) (nc : String)
    (i : Nat) (c : String) (s : Store) (tr : List (List Follower)) (fc : Nat)
    (iters : List IterRecord)
    (hfi : firedIter cancelAt i = false)
    (hok : ∀ f ∈ fs, fails f = false) (hnc : nc ≠ "") :
    runClean fails cancelAt (FetchScriptEntry.page fs nc :: rest)
        i c s tr fc iters =
      runClean fails cancelAt rest (i + 1) nc (fs.foldl upsert s)
        (tr ++ [fs]) (fc + 1)
        (iters ++ [⟨c, some (FetchScriptEntry.page fs nc), some true, nc⟩]) := by
  simp [runClean, hfi, saveFollowers,
    saveLoop_ok_of_no_fail fails fs hok s, hnc]

/-- Resume driver, fetch-error iteration: log, sleep 2 seconds, continue
with the same cursor. -/
theorem runResume_fetchErr (fails : Follower → Bool) (cancelAt : Option Nat)
    (rest : List FetchScriptEntry) (i : Nat) (c : String) (s : Store)
    (tr : List (List Follower)) (fc : Nat) (iters : List IterRecord)
    (hfi : firedIter cancelAt i = false) :
    runResume fails cancelAt (FetchScriptEntry.fetchErr :: rest)
        i c s tr fc iters =
      runResume fails cancelAt rest (i + 1) c s tr (fc + 1)
        (iters ++ [⟨c, some FetchScriptEntry.fetchErr, none, c⟩]) := by
  simp [runResume, hfi]

/-- Resume driver, failing-persist iteration: roll back, log, continue
with the same cursor (the page will be re-fetched). -/
theorem runResume_persistErr (fails : Follower → Bool)
    (cancelAt : Option Nat) (rest : List FetchScriptEntry)
    (fs : List Follower) (nc : String)
    (i : Nat) (c : String) (s : Store) (tr : List (List Follower)) (fc : Nat)
    (iters : List IterRecord)
    (hfi : firedIter cancelAt i = false)
    (hfail : ∃ f ∈ fs, fails f = true) :
    runResume fails cancelAt (FetchScriptEntry.page fs nc :: rest)
        i c s tr fc iters =
      runResume fails cancelAt rest (i + 1) c s (tr ++ [fs]) (fc + 1)
        (iters ++ [⟨c, some (FetchScriptEntry.page fs nc), some false, c⟩]) := by
  obtain ⟨m, hm⟩ := saveLoop_error_of_fail fails fs hfail s
  simp [runResume, hfi, saveFollowers, hm]

/-- The resume driver has no halting error path: whatever the script, the
per-record write behavior and the cancellation, it never ends FAILED. -/
theorem runResume_never_failed (fails : Follower → Bool)
    (cancelAt : Option Nat) :
    ∀ (script : List FetchScriptEntry) (i : Nat) (c : String) (s : Store)
      (tr : List (List Follower)) (fc : Nat) (iters : List IterRecord),
      (runResume fails cancelAt script i c s tr fc iters).status ≠
        DriverStatus.failed := by
  intro script
  induction script with
  | nil =>
    intro i c s tr fc iters
    by_cases hfi : firedIter cancelAt i = true
    · simp [runResume, hfi]
    · have hfi' : firedIter cancelAt i = false := by
        cases hv : firedIter cancelAt i with
        | false => rfl
        | true => exact absurd hv hfi
      simp [runResume, hfi']
  | cons e rest ih =>
    intro i c s tr fc iters
    by_cases hfi : firedIter cancelAt i = true
    · simp [runResume, hfi]
    · have hfi' : firedIter cancelAt i = false := by
        cases hv : firedIter cancelAt i with
        | false => rfl
        | true => exact absurd hv hfi
      cases e with
      | fetchErr =>
        rw [runResume_fetchErr fails cancelAt rest i c s tr fc iters hfi']
        exact ih _ _ _ _ _ _
      | page fs nc =>
        cases hsv : saveFollowers fails fs s with
        | mk res s' =>
          cases res with
          | error m =>
            simp only [runResume, hfi', hsv]
            exact ih _ _ _ _ _ _
          | ok u =>
            by_cases hnc : nc = ""
            · subst hnc
              simp [runResume, hfi', hsv]
            · simp only [runResume, hfi', hsv]
              simp only [hnc, if_false]
              exact ih _ _ _ _ _ _

/-- C5, amended. The clean-start driver behaves as the claim says: a fetch
error or a persist error makes it halt FAILED at once (one fetch call,
cursor and — for the persist error, after rollback — store unchanged,
nothing further). But the resume-variant driver, cited by the claim, has
no FAILED transition at all: on a fetch error it sleeps 2 seconds and
retries the same token, on a persist error it immediately continues with
the same token, and no run of it ever ends FAILED. -/
theorem claim_C5_driver_error_amended (fails : Follower → Bool)
    (cancelAt : Option Nat) (script rest : List FetchScriptEntry)
    (fs : List Follower) (nc : String) (i : Nat) (c : String) (s : Store)
    (tr : List (List Follower)) (fc : Nat) (iters : List IterRecord)
    (hfi : firedIter cancelAt i = false)
    (hfail : ∃ f ∈ fs, fails f = true) :
    (runClean fails cancelAt (FetchScriptEntry.fetchErr :: rest)
        i c s tr fc iters).status = DriverStatus.failed ∧
    (runClean fails cancelAt (FetchScriptEntry.fetchErr :: rest)
        i c s tr fc iters).fetchCalls = fc + 1 ∧
    (runClean fails cancelAt (FetchScriptEntry.fetchErr :: rest)
        i c s tr fc iters).persistCalls = tr ∧
    (runClean fails cancelAt (FetchScriptEntry.page fs nc :: rest)
        i c s tr fc iters).status = DriverStatus.failed ∧
    (runClean fails cancelAt (FetchScriptEntry.page fs nc :: rest)
        i c s tr fc iters).store = s ∧
    (runClean fails cancelAt (FetchScriptEntry.page fs nc :: rest)
        i c s tr fc iters).fetchCalls = fc + 1 ∧
    (runResume fails cancelAt script i c s tr fc iters).status ≠
      DriverStatus.failed ∧
    runResume fails cancelAt (FetchScriptEntry.fetchErr :: rest)
        i c s tr fc iters =
      runResume fails cancelAt rest (i + 1) c s tr (fc + 1)
        (iters ++ [⟨c, some FetchScriptEntry.fetchErr, none, c⟩]) ∧
    runResume fails cancelAt (FetchScriptEntry.page fs nc :: rest)
        i c s tr fc iters =
      runResume fails cancelAt rest (i + 1) c s (tr ++ [fs]) (fc + 1)
        (iters ++ [⟨c, some (FetchScriptEntry.page fs nc), some false, c⟩]) := by
  rw [runClean_fetchErr fails cancelAt rest i c s tr fc iters hfi]
  rw [runClean_persistErr fails cancelAt rest fs nc i c s tr fc iters hfi hfail]
  exact ⟨rfl, rfl, rfl, rfl, rfl, rfl,
    runResume_never_failed fails cancelAt script i c s tr fc iters,
    runResume_fetchErr fails cancelAt rest i c s tr fc iters hfi,
    runResume_persistErr fails cancelAt rest fs nc i c s tr fc iters hfi hfail⟩

/-- A record whose write fails under `failsBad`, and one that succeeds. -/
def badF : Follower := mkFollower "bad" "hb"

/-- A record whose write succeeds under `failsBad`. -/
def goodF : Follower := mkFollower "good" "hg"

/-- Write oracle failing exactly on `badF`. -/
def failsBad : Follower → Bool := fun f => f.did == "bad"

/-- Witness for the amended C5, at a concrete state with a failing batch. -/
theorem claim_C5_driver_error_amended_witness :
    (∃ f ∈ [badF], failsBad f = true) ∧
    (runClean failsBad none [FetchScriptEntry.fetchErr]
        0 "start" emptyStore [] 0 []).status = DriverStatus.failed ∧
    (runResume failsBad none [FetchScriptEntry.page [badF] "b"]
        0 "start" emptyStore [] 0 []).status ≠ DriverStatus.failed :=
  ⟨by decide,
    (claim_C5_driver_error_amended failsBad none
      [FetchScriptEntry.page [badF] "b"] [] [badF] "b" 0 "start" emptyStore
      [] 0 [] rfl (by decide)).1,
    (claim_C5_driver_error_amended failsBad none
      [FetchScriptEntry.page [badF] "b"] [] [badF] "b" 0 "start" emptyStore
      [] 0 [] rfl (by decide)).2.2.2.2.2.2.1⟩

/-- Counterexample to C5 as stated, on the cited resume-variant driver: the
first scripted page's persist fails, yet the driver does not transition to
FAILED and does not stop — it issues a second fetch, persists the second
page and ends DONE with two persist calls on record. -/
theorem claim_C5_driver_error_counterexample :
    (runResume failsBad none
        [FetchScriptEntry.page [badF] "b", FetchScriptEntry.page [goodF] ""]
        0 "start" emptyStore [] 0 []).persistCalls = [[badF], [goodF]] ∧
    (runResume failsBad none
        [FetchScriptEntry.page [badF] "b", FetchScriptEntry.page [goodF] ""]
        0 "start" emptyStore [] 0 []).fetchCalls = 2 ∧
    (runResume failsBad none
        [FetchScriptEntry.page [badF] "b", FetchScriptEntry.page [goodF] ""]
        0 "start" emptyStore [] 0 []).status = DriverStatus.done ∧
    (runResume failsBad none
        [FetchScriptEntry.page [badF] "b", FetchScriptEntry.page [goodF] ""]
        0 "start" emptyStore [] 0 []).status ≠ DriverStatus.failed := by
  refine ⟨rfl, rfl, rfl, by decide⟩

/-- The per-iteration token-advance property: the cursor leaves an
iteration changed only if that iteration fetched a page, persisted it
successfully, and moved to exactly that page's token; and any iteration
that was cancelled, hit a fetch error, or hit a persist failure leaves the
cursor unchanged. -/
def TokenAdvanceOK (r : IterRecord) : Prop :=
  (r.cursorAfter ≠ r.cursorBefore →
    ∃ fs nc, r.entry = some (FetchScriptEntry.page fs nc) ∧
      r.persistOk = some true ∧ r.cursorAfter = nc) ∧
  ((r.entry = none ∨ r.entry = some FetchScriptEntry.fetchErr ∨
      r.persistOk = some false) → r.cursorAfter = r.cursorBefore)

/-- Any iteration record that keeps the cursor satisfies the property. -/
theorem tokenAdvanceOK_same (c : String) (e : Option FetchScriptEntry)
    (p : Option Bool) : TokenAdvanceOK ⟨c, e, p, c⟩ :=
  ⟨fun h => absurd rfl h, fun _ => rfl⟩

/-- An advance record (page fetched, persist succeeded, cursor moved to
the page's token) satisfies the property. -/
theorem tokenAdvanceOK_advance (c nc : String) (fs : List Follower) :
    TokenAdvanceOK ⟨c, some (FetchScriptEntry.page fs nc), some true, nc⟩ := by
  constructor
  · intro _
    exact ⟨fs, nc, rfl, rfl, rfl⟩
  · intro h
    rcases h with h | h | h <;> simp at h

/-- Appending one good record preserves a pointwise property of a list. -/
theorem forall_mem_append_one {α : Type} (P : α → Prop) (l : List α) (x : α)
    (hl : ∀ r ∈ l, P r) (hx : P x) : ∀ r ∈ l ++ [x], P r := by
  intro r hr
  rcases List.mem_append.mp hr with h | h
  · exact hl r h
  · rcases List.mem_singleton.mp h with rfl
    exact hx

/-- C6: driver token-advance invariant, for both driver variants. Over any
run, every iteration on record advanced the cursor only after its page's
records were successfully persisted (and then exactly to that page's
token), and every cancelled, fetch-failed or persist-failed iteration left
the cursor unchanged — so the cursor always names the last successfully
committed position and a resume re-fetches at most the one uncommitted
page. -/
theorem claim_C6_token_advance (fails : Follower → Bool)
    (cancelAt : Option Nat) :
    (∀ (script : List FetchScriptEntry) (i : Nat) (c : String) (s : Store)
      (tr : List (List Follower)) (fc : Nat) (iters : List IterRecord),
      (∀ r ∈ iters, TokenAdvanceOK r) →
      ∀ r ∈ (runClean fails cancelAt script i c s tr fc iters).iters,
        TokenAdvanceOK r) ∧
    (∀ (script : List FetchScriptEntry) (i : Nat) (c : String) (s : Store)
      (tr : List (List Follower)) (fc : Nat) (iters : List IterRecord),
      (∀ r ∈ iters, TokenAdvanceOK r) →
      ∀ r ∈ (runResume fails cancelAt script i c s tr fc iters).iters,
        TokenAdvanceOK r) := by
  constructor
  · intro script
    induction script with
    | nil =>
      intro i c s tr fc iters hin
      by_cases hfi : firedIter cancelAt i = true
      · simpa [runClean, hfi] using
          forall_mem_append_one TokenAdvanceOK iters ⟨c, none, none, c⟩ hin
            (tokenAdvanceOK_same c none none)
      · have hfi' : firedIter cancelAt i = false := by
          cases hv : firedIter cancelAt i with
          | false => rfl
          | true => exact absurd hv hfi
        simpa [runClean, hfi'] using hin
    | cons e rest ih =>
      intro i c s tr fc iters hin
      by_cases hfi : firedIter cancelAt i = true
      · simpa [runClean, hfi] using
          forall_mem_append_one TokenAdvanceOK iters ⟨c, none, none, c⟩ hin
            (tokenAdvanceOK_same c none none)
      · have hfi' : firedIter cancelAt i = false := by
          cases hv : firedIter cancelAt i with
          | false => rfl
          | true => exact absurd hv hfi
        cases e with
        | fetchErr =>
          rw [runClean_fetchErr fails cancelAt rest i c s tr fc iters hfi']
          exact forall_mem_append_one TokenAdvanceOK iters _ hin
            (tokenAdvanceOK_same c (some FetchScriptEntry.fetchErr) none)
        | page fs nc =>
          cases hsv : saveFollowers fails fs s with
          | mk res s' =>
            cases res with
            | error m =>
              simp only [runClean, hfi', Bool.false_eq_true, if_false, hsv]
              exact forall_mem_append_one TokenAdvanceOK iters _ hin
                (tokenAdvanceOK_same c
                  (some (FetchScriptEntry.page fs nc)) (some false))
            | ok u =>
              by_cases hnc : nc = ""
              · subst hnc
                simp only [runClean, hfi', Bool.false_eq_true, if_false, hsv]
                exact forall_mem_append_one TokenAdvanceOK iters _ hin
                  (tokenAdvanceOK_same c
                    (some (FetchScriptEntry.page fs "")) (some true))
              · simp only [runClean, hfi', Bool.false_eq_true, if_false, hsv,
                  hnc]
                exact ih _ _ _ _ _ _
                  (forall_mem_append_one TokenAdvanceOK iters _ hin
                    (tokenAdvanceOK_advance c nc fs))
  · intro script
    induction script with
    | nil =>
      intro i c s tr fc iters hin
      by_cases hfi : firedIter cancelAt i = true
      · simpa [runResume, hfi] using
          forall_mem_append_one TokenAdvanceOK iters ⟨c, none, none, c⟩ hin
            (tokenAdvanceOK_same c none none)
      · have hfi' : firedIter cancelAt i = false := by
          cases hv : firedIter cancelAt i with
          | false => rfl
          | true => exact absurd hv hfi
        simpa [runResume, hfi'] using hin
    | cons e rest ih =>
      intro i c s tr fc iters hin
      by_cases hfi : firedIter cancelAt i = true
      · simpa [runResume, hfi] using
          forall_mem_append_one TokenAdvanceOK iters ⟨c, none, none, c⟩ hin
            (tokenAdvanceOK_same c none none)
      · have hfi' : firedIter cancelAt i = false := by
          cases hv : firedIter cancelAt i with
          | false => rfl
          | true => exact absurd hv hfi
        cases e with
        | fetchErr =>
          rw [runResume_fetchErr fails cancelAt rest i c s tr fc iters hfi']
          exact ih _ _ _ _ _ _
            (forall_mem_append_one TokenAdvanceOK iters _ hin
              (tokenAdvanceOK_same c (some FetchScriptEntry.fetchErr) none))
        | page fs nc =>
          cases hsv : saveFollowers fails fs s with
          | mk res s' =>
            cases res with
            | error m =>
              simp only [runResume, hfi', Bool.false_eq_true, if_false, hsv]
              exact ih _ _ _ _ _ _
                (forall_mem_append_one TokenAdvanceOK iters _ hin
                  (tokenAdvanceOK_same c
                    (some (FetchScriptEntry.page fs nc)) (some false)))
            | ok u =>
              by_cases hnc : nc = ""
              · subst hnc
                simp only [runResume, hfi', Bool.false_eq_true, if_false, hsv]
                exact forall_mem_append_one TokenAdvanceOK iters _ hin
                  (tokenAdvanceOK_same c
                    (some (FetchScriptEntry.page fs "")) (some true))
              · simp only [runResume, hfi', Bool.false_eq_true, if_false, hsv,
                  hnc]
                exact ih _ _ _ _ _ _
                  (forall_mem_append_one TokenAdvanceOK iters _ hin
                    (tokenAdvanceOK_advance c nc fs))

/-- Witness for C6: on the clean driver run that advances past one page
and then hits a fetch error, the recorded fetch-error iteration keeps the
cursor at `"b"`, the token of the last successfully persisted page. -/
theorem claim_C6_token_advance_witness :
    TokenAdvanceOK ⟨"b", some FetchScriptEntry.fetchErr, none, "b"⟩ :=
  (claim_C6_token_advance (fun _ => false) none).1
    [FetchScriptEntry.page [goodF] "b", FetchScriptEntry.fetchErr]
    0 "" emptyStore [] 0 [] (by simp)
    ⟨"b", some FetchScriptEntry.fetchErr, none, "b"⟩ (by decide)

/-- A scripted page sequence whose continuation tokens chain to the empty
token: non-empty tokens on every page but the last, empty token on the
last (so the sequence is non-empty). -/
def chainedScript : List (List Follower × String) → Bool
  | [] => false
  | [p] => p.2 == ""
  | p :: q :: rest => (!(p.2 == "")) && chainedScript (q :: rest)

/-- The scripted fetcher feeding those pages to the driver in order. -/
def scriptOfPages (pages : List (List Follower × String)) :
    List FetchScriptEntry :=
  pages.map (fun p => FetchScriptEntry.page p.1 p.2)

/-- C7: pagination termination. For every scripted page sequence whose
tokens end with the empty token, the clean-start driver (with no
cancellation and no write failures) persists each page exactly once, in
page order, makes exactly one fetch call per page, and ends DONE after
persisting the page whose token is empty — no further fetch or persist
calls. -/
theorem claim_C7_pagination_termination :
    ∀ (pages : List (List Follower × String)),
      chainedScript pages = true →
      ∀ (i : Nat) (c : String) (s : Store) (tr : List (List Follower))
        (fc : Nat) (iters : List IterRecord),
        (runClean (fun _ => false) none (scriptOfPages pages)
            i c s tr fc iters).status = DriverStatus.done ∧
        (runClean (fun _ => false) none (scriptOfPages pages)
            i c s tr fc iters).persistCalls = tr ++ pages.map Prod.fst ∧
        (runClean (fun _ => false) none (scriptOfPages pages)
            i c s tr fc iters).fetchCalls = fc + pages.length := by
  intro pages
  induction pages with
  | nil => intro h; exact absurd h (by decide)
  | cons p ps ih =>
    intro h i c s tr fc iters
    cases ps with
    | nil =>
      have hp : p.2 = "" := by simpa [chainedScript] using h
      have hscr : scriptOfPages [p] = [FetchScriptEntry.page p.1 p.2] := rfl
      rw [hscr, hp]
      rw [runClean_page_done (fun _ => false) none [] p.1 i c s tr fc iters
        rfl (fun _ _ => rfl)]
      exact ⟨rfl, rfl, rfl⟩
    | cons q rest =>
      have hb : ((!(p.2 == "")) && chainedScript (q :: rest)) = true := h
      have hp : p.2 ≠ "" := by
        rcases Bool.and_eq_true_iff.mp hb with ⟨h1, _⟩
        simpa using h1
      have hps : chainedScript (q :: rest) = true :=
        (Bool.and_eq_true_iff.mp hb).2
      have hscr : scriptOfPages (p :: q :: rest) =
          FetchScriptEntry.page p.1 p.2 :: scriptOfPages (q :: rest) := rfl
      rw [hscr]
      rw [runClean_page_advance (fun _ => false) none
        (scriptOfPages (q :: rest)) p.1 p.2 i c s tr fc iters rfl
        (fun _ _ => rfl) hp]
      obtain ⟨h1, h2, h3⟩ := ih hps (i + 1) p.2 (p.1.foldl upsert s)
        (tr ++ [p.1]) (fc + 1)
        (iters ++ [⟨c, some (FetchScriptEntry.page p.1 p.2), some true, p.2⟩])
      refine ⟨h1, ?_, ?_⟩
      · rw [h2]
        simp [List.append_assoc]
      · rw [h3]
        simp [List.length_cons]
        omega

/-- Witness for C7: the spec's scenario — three scripted pages with tokens
`"a" → "b" → ""` — makes the driver, started from the empty token, persist
exactly three batches in page order and end DONE after three fetches. -/
theorem claim_C7_pagination_termination_witness :
    chainedScript [([goodF], "a"), ([badF], "b"), ([], "")] = true ∧
    (runClean (fun _ => false) none
        (scriptOfPages [([goodF], "a"), ([badF], "b"), ([], "")])
        0 "" emptyStore [] 0 []).status = DriverStatus.done ∧
    (runClean (fun _ => false) none
        (scriptOfPages [([goodF], "a"), ([badF], "b"), ([], "")])
        0 "" emptyStore [] 0 []).persistCalls =
      [] ++ [([goodF], "a"), ([badF], "b"), ([], "")].map Prod.fst ∧
    (runClean (fun _ => false) none
        (scriptOfPages [([goodF], "a"), ([badF], "b"), ([], "")])
        0 "" emptyStore [] 0 []).fetchCalls = 0 + 3 :=
  ⟨by decide,
    (claim_C7_pagination_termination _ (by decide) 0 "" emptyStore [] 0 []).1,
    (claim_C7_pagination_termination _ (by decide) 0 "" emptyStore [] 0 []).2.1,
    (claim_C7_pagination_termination _ (by decide) 0 "" emptyStore [] 0 []).2.2⟩
